import Mathlib

/-!
Shallow embedding of the zebra-zq220-connect pairing subsystem.

Sources embedded here:
* `src/src/App.tsx` — the Device List Reconciler (React state updates on
  bridge events and caller commands).
* `src/android/.../BluetoothPairingModule.kt` — the native module
  (`pairDevice`, `stopDiscovery`, bond-state receiver).
* `src/android/.../PairingReceiver.kt` — the static pairing responder.
* `src/unnamed/part_003` — an alternate module version whose `pairDevice`
  stores the pin into its `pairingPin` field.

Android bond-state integer constants (`BluetoothDevice.BOND_*`), as re-exported
by `src/unnamed/part_002` (`BluetoothPairingModule.ts`).
-/

namespace ZebraZQ220

def BOND_NONE : Nat := 10
def BOND_BONDING : Nat := 11
def BOND_BONDED : Nat := 12

/-- `BluetoothDevice` record as delivered over the bridge
(`src/unnamed/part_002`): address, name, bond state. -/
structure BluetoothDevice where
  address : String
  name : String
  bondState : Nat
deriving DecidableEq

/-- Client-side pairing status (`App.tsx` line 42:
`type PairingStatus = 'idle' | 'pairing' | 'success' | 'failed'`). -/
inductive PairingStatus where
  | idle
  | pairing
  | success
  | failed
deriving DecidableEq

/-- `DeviceState extends BluetoothDevice` with a `pairingStatus` field
(`App.tsx` lines 44-46). -/
structure DeviceState where
  address : String
  name : String
  bondState : Nat
  pairingStatus : PairingStatus
deriving DecidableEq

/-! String helpers mirroring the JavaScript operations used by
`isZebraDevice` (`App.tsx` lines 31-40): `toUpperCase`, `startsWith`,
`includes`. Modelled on `List Char` so they evaluate in the kernel. -/

/-- JS `pat.isPrefixOf l`-style check with list chars; mirrors
`String.prototype.startsWith`. -/
def strStartsWith (s pre : String) : Bool :=
  pre.data.isPrefixOf s.data

/-- Substring search over char lists; `hasSubstr pat l` is true iff `pat`
occurs contiguously in `l` (JS `String.prototype.includes`). -/
def hasSubstr (pat : List Char) : List Char → Bool
  | [] => pat.isEmpty
  | c :: tl => pat.isPrefixOf (c :: tl) || hasSubstr pat tl

/-- JS `s.includes pat`. -/
def strIncludes (s pat : String) : Bool :=
  hasSubstr pat.data s.data

/-- JS `s.toUpperCase ()` (ASCII, which covers every string the app
compares against). -/
def upperStr (s : String) : String :=
  ⟨s.data.map Char.toUpper⟩

/-- Zebra OUI address prefixes (`App.tsx` line 35). -/
def zebraOuis : List String := ["00:A0:96", "00:07:4D", "AC:3F:A4"]

/-- `isZebraDevice` (`App.tsx` lines 31-40): the upper-cased address starts
with a Zebra OUI, or the upper-cased name contains ZQ, ZEBRA or ZD. -/
def isZebraNameAddr (name address : String) : Bool :=
  let n := upperStr name
  let a := upperStr address
  (zebraOuis.any fun oui => strStartsWith a oui)
    || strIncludes n "ZQ" || strIncludes n "ZEBRA" || strIncludes n "ZD"

def isZebraDevice (d : BluetoothDevice) : Bool :=
  isZebraNameAddr d.name d.address

/-! The Device List Reconciler: each React `setDevices` updater from
`App.tsx` becomes a function `List DeviceState → List DeviceState`. -/

/-- `prev.find (d => d.address === device.address)` (`App.tsx` line 105). -/
def findByAddr (s : List DeviceState) (addr : String) : Option DeviceState :=
  s.find? fun d => d.address == addr

/-- `onDeviceFound` handler (`App.tsx` lines 100-110): drop non-Zebra
devices, drop duplicates by address, otherwise append with status idle. -/
def deviceFoundStep (device : BluetoothDevice) (prev : List DeviceState) :
    List DeviceState :=
  if !isZebraDevice device then prev
  else if (findByAddr prev device.address).isSome then prev
  else prev ++ [⟨device.address, device.name, device.bondState, .idle⟩]

/-- `onPairingSuccess` handler (`App.tsx` lines 114-122): for the matching
address force bond state BONDED and status success. -/
def pairingSuccessStep (addr : String) (prev : List DeviceState) :
    List DeviceState :=
  prev.map fun d =>
    if d.address == addr then
      { d with bondState := BOND_BONDED, pairingStatus := .success }
    else d

/-- `onPairingFailed` handler (`App.tsx` lines 123-131) and the `catch`
branch of `handlePair` (lines 186-192): status failed for the address. -/
def pairingFailedStep (addr : String) (prev : List DeviceState) :
    List DeviceState :=
  prev.map fun d =>
    if d.address == addr then { d with pairingStatus := .failed } else d

/-- Scan start (`App.tsx` line 159): keep bonded devices, remove unbonded. -/
def scanClearStep (prev : List DeviceState) : List DeviceState :=
  prev.filter fun d => d.bondState == BOND_BONDED

/-- First updater of `handlePair` (`App.tsx` lines 170-174): status pairing
for the address. -/
def pairRequestStep (addr : String) (prev : List DeviceState) :
    List DeviceState :=
  prev.map fun d =>
    if d.address == addr then { d with pairingStatus := .pairing } else d

/-- `handlePair` updater on an `ALREADY_BONDED` result (`App.tsx` lines
177-185): bond state BONDED and status success for the address. -/
def alreadyBondedStep (addr : String) (prev : List DeviceState) :
    List DeviceState :=
  prev.map fun d =>
    if d.address == addr then
      { d with bondState := BOND_BONDED, pairingStatus := .success }
    else d

/-- `handleUnpair` updater after a successful unpair (`App.tsx` line 198):
remove the device from the set. -/
def unpairStep (addr : String) (prev : List DeviceState) : List DeviceState :=
  prev.filter fun d => d.address != addr

/-- `loadBondedDevices` (`App.tsx` lines 139-149): the bonded snapshot
filtered to Zebra devices, each with status idle. -/
def loadBondedStep (bonded : List BluetoothDevice) : List DeviceState :=
  (bonded.filter isZebraDevice).map fun d =>
    ⟨d.address, d.name, d.bondState, .idle⟩

/-- One reconciler-visible occurrence: a bridge event or the effect of a
caller command, as dispatched by the handlers in `App.tsx`. -/
inductive AppAction where
  | deviceFound (d : BluetoothDevice)
  | discoveryFinished
  | pairingSuccess (addr : String)
  | pairingFailed (addr : String)
  | scanStart
  | pairRequest (addr : String)
  | pairAlreadyBonded (addr : String)
  | pairRejected (addr : String)
  | unpairOk (addr : String)
deriving DecidableEq

/-- Dispatch of one action to the matching `App.tsx` state updater.
`discoveryFinished` only flips the `scanning` flag and leaves the device
list unchanged. -/
def appStep : AppAction → List DeviceState → List DeviceState
  | .deviceFound d, s => deviceFoundStep d s
  | .discoveryFinished, s => s
  | .pairingSuccess a, s => pairingSuccessStep a s
  | .pairingFailed a, s => pairingFailedStep a s
  | .scanStart, s => scanClearStep s
  | .pairRequest a, s => pairRequestStep a s
  | .pairAlreadyBonded a, s => alreadyBondedStep a s
  | .pairRejected a, s => pairingFailedStep a s
  | .unpairOk a, s => unpairStep a s

/-- A whole session: fold a sequence of actions over a starting list. -/
def appRun (s : List DeviceState) (tr : List AppAction) : List DeviceState :=
  tr.foldl (fun st a => appStep a st) s

/-! The native module (`BluetoothPairingModule.kt`). Platform adapter
behavior is an input to the model; module fields (`isDiscovering`, the
discovery receiver registration, and the static `PairingReceiver.pin`)
are explicit state. -/

/-- Platform adapter behavior visible to the module: whether an adapter
exists, whether it is enabled, each address's current platform bond state
(`getRemoteDevice(address).bondState`), and whether the platform accepts a
`createBond()` request for an address. -/
structure Platform where
  adapterPresent : Bool
  adapterEnabled : Bool
  bondState : String → Nat
  createBondAccepted : String → Bool

/-- Mutable module-side state: `isDiscovering`
(`BluetoothPairingModule.kt` line 33), whether the discovery receiver is
registered, and the process-wide configured pairing PIN
(`PairingReceiver.pin`, default "0000"; `pairingPin` in the part_003
variant). -/
structure ModuleState where
  isDiscovering : Bool
  discoveryReceiverRegistered : Bool
  responderPin : String
deriving DecidableEq

/-- Outcome of a promise-based native call: `promise.resolve(value)` or
`promise.reject(code, ...)`. -/
inductive CallOutcome where
  | resolved (value : String)
  | rejected (code : String)
deriving DecidableEq

/-- Result of a `pairDevice` call: the module state afterwards, the promise
outcome, and whether a `createBond()` request was issued to the platform. -/
structure PairCallResult where
  state : ModuleState
  outcome : CallOutcome
  bondRequested : Bool
deriving DecidableEq

/-- `pairDevice` from the named `BluetoothPairingModule.kt` (lines 236-269):
reject `BT_UNAVAILABLE` without an adapter; cancel discovery if running;
resolve `ALREADY_BONDED` when the platform bond state is BONDED (no
`createBond`); otherwise `createBond()` — resolve `BONDING_STARTED` when
the platform accepts, reject `BOND_FAILED` when it declines. The `pin`
argument appears in the signature but is used nowhere in the body; in
particular `PairingReceiver.pin` is never assigned. -/
def pairDevice (p : Platform) (st : ModuleState) (address pin : String) :
    PairCallResult :=
  if p.adapterPresent = false then ⟨st, .rejected "BT_UNAVAILABLE", false⟩
  else
    let st1 := if st.isDiscovering then { st with isDiscovering := false } else st
    if p.bondState address == BOND_BONDED then
      ⟨st1, .resolved "ALREADY_BONDED", false⟩
    else if p.createBondAccepted address then
      ⟨st1, .resolved "BONDING_STARTED", true⟩
    else ⟨st1, .rejected "BOND_FAILED", true⟩

/-- `pairDevice` from the alternate module in `src/unnamed/part_003`
(lines 277-314): same flow, but with a connect-permission guard and with
`pairingPin = pin` executed before the bond-state check. -/
def pairDevicePart003 (p : Platform) (permConnect : Bool) (st : ModuleState)
    (address pin : String) : PairCallResult :=
  if permConnect = false then ⟨st, .rejected "PERMISSION_DENIED", false⟩
  else if p.adapterPresent = false then ⟨st, .rejected "BT_UNAVAILABLE", false⟩
  else
    let st1 := if st.isDiscovering then { st with isDiscovering := false } else st
    let st2 := { st1 with responderPin := pin }
    if p.bondState address == BOND_BONDED then
      ⟨st2, .resolved "ALREADY_BONDED", false⟩
    else if p.createBondAccepted address then
      ⟨st2, .resolved "BONDING_STARTED", true⟩
    else ⟨st2, .rejected "BOND_FAILED", true⟩

/-- Result of a `stopDiscovery` call. -/
structure StopResult where
  state : ModuleState
  outcome : CallOutcome
deriving DecidableEq

/-- `stopDiscovery` (`BluetoothPairingModule.kt` lines 188-207): reject
`BT_UNAVAILABLE` without an adapter; otherwise `cancelDiscovery()`, set
`isDiscovering = false`, unregister the discovery receiver (a
"not registered" error is swallowed by the inner try/catch), and resolve
`true` (rendered here as the string "true"). -/
def stopDiscovery (p : Platform) (st : ModuleState) : StopResult :=
  if p.adapterPresent = false then ⟨st, .rejected "BT_UNAVAILABLE"⟩
  else
    ⟨{ st with isDiscovering := false, discoveryReceiverRegistered := false },
      .resolved "true"⟩

/-! The Bond State Observer (`bondReceiver` in `BluetoothPairingModule.kt`
lines 55-92; identically `pairingReceiver`'s bond branch in
`src/unnamed/part_003` lines 102-131). -/

/-- An event emitted toward JS by the bond-state receiver. -/
inductive BondEvent where
  | pairingSuccessEvt
  | pairingFailedEvt
deriving DecidableEq

/-- The `when (bondState)` classification: BONDED emits `onPairingSuccess`;
NONE emits `onPairingFailed` only when the previous state was BONDING;
every other transition emits nothing. -/
def classifyBondChange (bondState prevState : Nat) : Option BondEvent :=
  if bondState == BOND_BONDED then some .pairingSuccessEvt
  else if bondState == BOND_NONE then
    if prevState == BOND_BONDING then some .pairingFailedEvt else none
  else none

/-! The Pairing Responder (`PairingReceiver.kt`, registered statically with
high priority). The platform calls (`setPin`, `setPairingConfirmation`)
may throw; the handler's try/catch swallows any such exception. -/

/-- Which platform resolution call the responder issued. -/
inductive ResponderResolution where
  | setPinTo (pin : String)
  | confirm
deriving DecidableEq

/-- Observable effect of one `onReceive` of a pairing challenge: the
resolution call attempted, whether `abortBroadcast()` ran, and whether an
exception escaped the handler. -/
structure ResponderEffect where
  resolution : ResponderResolution
  aborted : Bool
  exceptionEscaped : Bool
deriving DecidableEq

/-- Whether the platform resolution calls throw during this delivery. -/
structure ResponderEnv where
  setPinThrows : Bool
  confirmThrows : Bool

/-- `PairingReceiver.onReceive` (`PairingReceiver.kt` lines 27-55) on a
challenge with the given variant: variant 0 sets the configured PIN,
variants 2 and 3 confirm, and any other variant falls back to a generic
confirm; each path then aborts the broadcast. A platform call that throws
skips the abort, and the outer catch keeps the exception from escaping. -/
def pairingResponderHandle (env : ResponderEnv) (pin : String)
    (variant : Int) : ResponderEffect :=
  if variant == 0 then
    if env.setPinThrows then ⟨.setPinTo pin, false, false⟩
    else ⟨.setPinTo pin, true, false⟩
  else if variant == 2 then
    if env.confirmThrows then ⟨.confirm, false, false⟩
    else ⟨.confirm, true, false⟩
  else if variant == 3 then
    if env.confirmThrows then ⟨.confirm, false, false⟩
    else ⟨.confirm, true, false⟩
  else
    if env.confirmThrows then ⟨.confirm, false, false⟩
    else ⟨.confirm, true, false⟩

/-! Concrete fixtures used by witnesses. -/

def demoPlatform : Platform := ⟨true, true, fun _ => BOND_NONE, fun _ => true⟩

def bondedPlatform : Platform := ⟨true, true, fun _ => BOND_BONDED, fun _ => true⟩

def devBondedA : DeviceState := ⟨"00:07:4D:00:00:01", "ZQ220", BOND_BONDED, .idle⟩

def devUnbondedB : DeviceState := ⟨"00:07:4D:00:00:02", "ZQ220", BOND_NONE, .idle⟩

def devPairingC : DeviceState := ⟨"00:07:4D:11:22:33", "ZQ220", BOND_NONE, .pairing⟩

def devSuccessC : DeviceState :=
  ⟨"00:07:4D:11:22:33", "ZQ220", BOND_BONDED, .success⟩

def devFailedD : DeviceState := ⟨"00:07:4D:00:00:03", "ZQ220", BOND_NONE, .failed⟩

def foundEvtNone : BluetoothDevice := ⟨"AA:BB:CC:DD:EE:01", "ZQ220", BOND_NONE⟩

def foundEvtBonded : BluetoothDevice :=
  ⟨"AA:BB:CC:DD:EE:01", "ZQ220", BOND_BONDED⟩

def devIdleFirst : DeviceState := ⟨"AA:BB:CC:DD:EE:01", "ZQ220", BOND_NONE, .idle⟩

/-! Helper lemmas about the reconciler steps. All four status-writing
updaters of `App.tsx` share the shape
`prev.map (d => d.address === addr ? upd(d) : d)`. -/

/-- Membership in an address-targeted map update: every output element is
an input element with the same address, either untouched or (when its
address is the target) rewritten by the update. -/
theorem mem_mapIfAddr (u : DeviceState → DeviceState)
    (hu : ∀ d, (u d).address = d.address) (addr : String)
    {s : List DeviceState} {d' : DeviceState}
    (h : d' ∈ s.map fun d => if d.address == addr then u d else d) :
    ∃ d ∈ s, d.address = d'.address
      ∧ (d' = d ∨ (d'.address = addr ∧ d' = u d)) := by
  obtain ⟨d, hd, heq⟩ := List.mem_map.mp h
  by_cases hx : d.address = addr
  · rw [if_pos (by simpa using hx)] at heq
    refine ⟨d, hd, ?_, Or.inr ⟨?_, heq.symm⟩⟩
    · rw [← heq, hu d]
    · rw [← heq, hu d, hx]
  · rw [if_neg (by simpa using hx)] at heq
    exact ⟨d, hd, heq ▸ rfl, Or.inl heq.symm⟩

/-- An address-targeted map update leaves the list of addresses unchanged. -/
theorem addr_mapIfAddr (u : DeviceState → DeviceState)
    (hu : ∀ d, (u d).address = d.address) (addr : String)
    (s : List DeviceState) :
    ((s.map fun d => if d.address == addr then u d else d).map
        DeviceState.address)
      = s.map DeviceState.address := by
  rw [List.map_map]
  refine List.map_congr_left fun d _ => ?_
  by_cases hx : d.address = addr <;> simp [Function.comp, hx, hu d]

/-- No single reconciler step gives an already-listed device the status
PAIRING unless it is the pair request for that very address. -/
theorem appStep_preserves_not_pairing (a : AppAction) (addr : String)
    (ha : a ≠ .pairRequest addr) (s : List DeviceState)
    (hs : ∀ d ∈ s, d.address = addr → d.pairingStatus ≠ .pairing) :
    ∀ d ∈ appStep a s, d.address = addr → d.pairingStatus ≠ .pairing := by
  intro d' hd' hda
  cases a with
  | deviceFound dv =>
    simp only [appStep, deviceFoundStep] at hd'
    split_ifs at hd' with h1 h2
    · exact hs d' hd' hda
    · exact hs d' hd' hda
    · rcases List.mem_append.mp hd' with h | h
      · exact hs d' h hda
      · simp only [List.mem_singleton] at h
        subst h
        intro hcon
        cases hcon
  | discoveryFinished => exact hs d' hd' hda
  | pairingSuccess a' =>
    simp only [appStep, pairingSuccessStep] at hd'
    obtain ⟨d, hd, _, hcase⟩ := mem_mapIfAddr
      (fun d => { d with bondState := BOND_BONDED, pairingStatus := .success })
      (fun _ => rfl) a' hd'
    rcases hcase with heq | ⟨_, heq⟩
    · rw [heq]; exact hs d hd (heq ▸ hda)
    · rw [heq]; intro hcon; cases hcon
  | pairingFailed a' =>
    simp only [appStep, pairingFailedStep] at hd'
    obtain ⟨d, hd, _, hcase⟩ := mem_mapIfAddr
      (fun d => { d with pairingStatus := .failed }) (fun _ => rfl) a' hd'
    rcases hcase with heq | ⟨_, heq⟩
    · rw [heq]; exact hs d hd (heq ▸ hda)
    · rw [heq]; intro hcon; cases hcon
  | scanStart =>
    exact hs d' (List.mem_filter.mp hd').1 hda
  | pairRequest a' =>
    have hne : a' ≠ addr := fun h => ha (by rw [h])
    simp only [appStep, pairRequestStep] at hd'
    obtain ⟨d, hd, _, hcase⟩ := mem_mapIfAddr
      (fun d => { d with pairingStatus := .pairing }) (fun _ => rfl) a' hd'
    rcases hcase with heq | ⟨haddr, heq⟩
    · rw [heq]; exact hs d hd (heq ▸ hda)
    · exact absurd (haddr.symm.trans hda) hne
  | pairAlreadyBonded a' =>
    simp only [appStep, alreadyBondedStep] at hd'
    obtain ⟨d, hd, _, hcase⟩ := mem_mapIfAddr
      (fun d => { d with bondState := BOND_BONDED, pairingStatus := .success })
      (fun _ => rfl) a' hd'
    rcases hcase with heq | ⟨_, heq⟩
    · rw [heq]; exact hs d hd (heq ▸ hda)
    · rw [heq]; intro hcon; cases hcon
  | pairRejected a' =>
    simp only [appStep, pairingFailedStep] at hd'
    obtain ⟨d, hd, _, hcase⟩ := mem_mapIfAddr
      (fun d => { d with pairingStatus := .failed }) (fun _ => rfl) a' hd'
    rcases hcase with heq | ⟨_, heq⟩
    · rw [heq]; exact hs d hd (heq ▸ hda)
    · rw [heq]; intro hcon; cases hcon
  | unpairOk a' =>
    exact hs d' (List.mem_filter.mp hd').1 hda

/-- Every reconciler step keeps the all-Zebra invariant: steps never touch
name or address of a listed device, and the only entry points
(device-found, bonded snapshot) are guarded by `isZebraDevice`. -/
theorem appStep_preserves_zebra (a : AppAction) (s : List DeviceState)
    (hs : ∀ d ∈ s, isZebraNameAddr d.name d.address = true) :
    ∀ d ∈ appStep a s, isZebraNameAddr d.name d.address = true := by
  intro d' hd'
  cases a with
  | deviceFound dv =>
    simp only [appStep, deviceFoundStep] at hd'
    split_ifs at hd' with h1 h2
    · exact hs d' hd'
    · exact hs d' hd'
    · rcases List.mem_append.mp hd' with h | h
      · exact hs d' h
      · simp only [List.mem_singleton] at h
        subst h
        simpa [isZebraDevice] using h1
  | discoveryFinished => exact hs d' hd'
  | pairingSuccess a' =>
    simp only [appStep, pairingSuccessStep] at hd'
    obtain ⟨d, hd, _, hcase⟩ := mem_mapIfAddr
      (fun d => { d with bondState := BOND_BONDED, pairingStatus := .success })
      (fun _ => rfl) a' hd'
    rcases hcase with heq | ⟨_, heq⟩ <;> rw [heq] <;> exact hs d hd
  | pairingFailed a' =>
    simp only [appStep, pairingFailedStep] at hd'
    obtain ⟨d, hd, _, hcase⟩ := mem_mapIfAddr
      (fun d => { d with pairingStatus := .failed }) (fun _ => rfl) a' hd'
    rcases hcase with heq | ⟨_, heq⟩ <;> rw [heq] <;> exact hs d hd
  | scanStart => exact hs d' (List.mem_filter.mp hd').1
  | pairRequest a' =>
    simp only [appStep, pairRequestStep] at hd'
    obtain ⟨d, hd, _, hcase⟩ := mem_mapIfAddr
      (fun d => { d with pairingStatus := .pairing }) (fun _ => rfl) a' hd'
    rcases hcase with heq | ⟨_, heq⟩ <;> rw [heq] <;> exact hs d hd
  | pairAlreadyBonded a' =>
    simp only [appStep, alreadyBondedStep] at hd'
    obtain ⟨d, hd, _, hcase⟩ := mem_mapIfAddr
      (fun d => { d with bondState := BOND_BONDED, pairingStatus := .success })
      (fun _ => rfl) a' hd'
    rcases hcase with heq | ⟨_, heq⟩ <;> rw [heq] <;> exact hs d hd
  | pairRejected a' =>
    simp only [appStep, pairingFailedStep] at hd'
    obtain ⟨d, hd, _, hcase⟩ := mem_mapIfAddr
      (fun d => { d with pairingStatus := .failed }) (fun _ => rfl) a' hd'
    rcases hcase with heq | ⟨_, heq⟩ <;> rw [heq] <;> exact hs d hd
  | unpairOk a' => exact hs d' (List.mem_filter.mp hd').1

/-! Claim theorems. -/

/-- C1: the bond-state receiver emits onPairingSuccess exactly when the new
state is BONDED, emits onPairingFailed exactly when the new state is NONE
and the previous state was BONDING, and emits nothing for any other
transition (in particular BONDED→NONE by unpair, NONE→NONE and
NONE→BONDING emit nothing). -/
theorem c1_bond_classification (n p : Nat) :
    (classifyBondChange n p = some .pairingSuccessEvt ↔ n = BOND_BONDED)
    ∧ (classifyBondChange n p = some .pairingFailedEvt
        ↔ n = BOND_NONE ∧ p = BOND_BONDING)
    ∧ (n ≠ BOND_BONDED → ¬(n = BOND_NONE ∧ p = BOND_BONDING) →
        classifyBondChange n p = none) := by
  unfold classifyBondChange
  split_ifs with h1 h2 h3 <;>
    simp_all [BOND_NONE, BOND_BONDING, BOND_BONDED]

theorem c1_bond_classification_witness :
    classifyBondChange 12 11 = some .pairingSuccessEvt
    ∧ classifyBondChange 10 11 = some .pairingFailedEvt
    ∧ classifyBondChange 10 12 = none :=
  ⟨(c1_bond_classification 12 11).1.mpr rfl,
   (c1_bond_classification 10 11).2.1.mpr ⟨rfl, rfl⟩,
   (c1_bond_classification 10 12).2.2 (by decide) (by decide)⟩

/-- C4 is refuted by the code: the named module's pairDevice accepts a pin
argument but never stores it, so after pairDevice(addr, "1234") the
configured responder PIN is still the previous value "0000" and a
subsequent PIN-variant challenge is answered with "0000"; the part_003
variant, matching the spec, does store "1234". -/
theorem c4_pin_never_stored :
    (pairDevice demoPlatform ⟨false, false, "0000"⟩
        "AA:BB:CC:DD:EE:02" "1234").outcome = .resolved "BONDING_STARTED"
    ∧ (pairDevice demoPlatform ⟨false, false, "0000"⟩
        "AA:BB:CC:DD:EE:02" "1234").state.responderPin = "0000"
    ∧ (pairingResponderHandle ⟨false, false⟩
        (pairDevice demoPlatform ⟨false, false, "0000"⟩
          "AA:BB:CC:DD:EE:02" "1234").state.responderPin 0).resolution
      = .setPinTo "0000"
    ∧ (pairDevicePart003 demoPlatform true ⟨false, false, "0000"⟩
        "AA:BB:CC:DD:EE:02" "1234").state.responderPin = "1234" :=
  ⟨rfl, rfl, rfl, rfl⟩

/-- C5: with an adapter present, pairDevice resolves ALREADY_BONDED and
issues no createBond when the platform bond state is already BONDED (and
the caller's ALREADY_BONDED updater then marks the device success with
bond state BONDED); otherwise a createBond request is issued, the call
resolves BONDING_STARTED exactly when the platform accepts it, and rejects
BOND_FAILED exactly when the platform declines it. -/
theorem c5_pairDevice_contract (p : Platform) (st : ModuleState)
    (addr pin : String) (h : p.adapterPresent = true) :
    (p.bondState addr = BOND_BONDED →
      (pairDevice p st addr pin).outcome = .resolved "ALREADY_BONDED"
      ∧ (pairDevice p st addr pin).bondRequested = false
      ∧ ∀ s : List DeviceState, ∀ d ∈ appStep (.pairAlreadyBonded addr) s,
          d.address = addr →
          d.pairingStatus = .success ∧ d.bondState = BOND_BONDED)
    ∧ (p.bondState addr ≠ BOND_BONDED →
      (pairDevice p st addr pin).bondRequested = true
      ∧ ((pairDevice p st addr pin).outcome = .resolved "BONDING_STARTED"
          ↔ p.createBondAccepted addr = true)
      ∧ ((pairDevice p st addr pin).outcome = .rejected "BOND_FAILED"
          ↔ p.createBondAccepted addr = false)) := by
  constructor
  · intro hb
    refine ⟨by simp [pairDevice, h, hb], by simp [pairDevice, h, hb], ?_⟩
    intro s d hd hda
    simp only [appStep, alreadyBondedStep, List.mem_map] at hd
    obtain ⟨d', _, rfl⟩ := hd
    by_cases hx : d'.address = addr
    · simp [hx]
    · simp only [beq_iff_eq, if_neg hx] at hda ⊢
      exact absurd hda hx
  · intro hb
    cases hacc : p.createBondAccepted addr <;>
      simp [pairDevice, h, hb, hacc]

theorem c5_pairDevice_contract_witness :
    (pairDevice bondedPlatform ⟨false, false, "0000"⟩
        "00:07:4D:11:22:33" "0000").outcome = .resolved "ALREADY_BONDED"
    ∧ (pairDevice bondedPlatform ⟨false, false, "0000"⟩
        "00:07:4D:11:22:33" "0000").bondRequested = false
    ∧ devSuccessC.pairingStatus = .success
    ∧ devSuccessC.bondState = BOND_BONDED :=
  have h := (c5_pairDevice_contract bondedPlatform ⟨false, false, "0000"⟩
    "00:07:4D:11:22:33" "0000" rfl).1 rfl
  ⟨h.1, h.2.1,
    h.2.2 [devPairingC] devSuccessC (by decide) rfl⟩

/-- C6: for a pairing challenge with any unrecognized variant, the static
pairing responder attempts a generic confirm as fallback, no exception
escapes the handler, and the broadcast is aborted whenever the confirm
call returns normally. -/
theorem c6_unknown_variant_fallback (env : ResponderEnv) (pin : String)
    (variant : Int) (h0 : variant ≠ 0) (h2 : variant ≠ 2) (h3 : variant ≠ 3) :
    (pairingResponderHandle env pin variant).resolution = .confirm
    ∧ (pairingResponderHandle env pin variant).exceptionEscaped = false
    ∧ (env.confirmThrows = false →
        (pairingResponderHandle env pin variant).aborted = true) := by
  unfold pairingResponderHandle
  cases hc : env.confirmThrows <;> simp [h0, h2, h3, hc]

theorem c6_unknown_variant_fallback_witness :
    (pairingResponderHandle ⟨false, false⟩ "0000" 99).resolution = .confirm
    ∧ (pairingResponderHandle ⟨false, false⟩ "0000" 99).exceptionEscaped = false
    ∧ (pairingResponderHandle ⟨false, false⟩ "0000" 99).aborted = true :=
  have h := c6_unknown_variant_fallback ⟨false, false⟩ "0000" 99
    (by decide) (by decide) (by decide)
  ⟨h.1, h.2.1, h.2.2 rfl⟩

/-- C8: starting a new scan keeps exactly the devices whose bond state is
BONDED — membership in the cleared set holds iff the device was in the set
with bond state BONDED — and the kept records are untouched entries of the
original list (the result is a sublist). -/
theorem c8_scan_clears_unbonded (s : List DeviceState) :
    (∀ d : DeviceState,
      d ∈ scanClearStep s ↔ d ∈ s ∧ d.bondState = BOND_BONDED)
    ∧ List.Sublist (scanClearStep s) s := by
  refine ⟨fun d => ?_, List.filter_sublist s⟩
  simp [scanClearStep, List.mem_filter]

theorem c8_scan_clears_unbonded_witness :
    devBondedA ∈ scanClearStep [devBondedA, devUnbondedB]
    ∧ ¬ devUnbondedB ∈ scanClearStep [devBondedA, devUnbondedB] :=
  ⟨((c8_scan_clears_unbonded [devBondedA, devUnbondedB]).1 devBondedA).mpr
      ⟨by decide, rfl⟩,
   fun hmem =>
     absurd (((c8_scan_clears_unbonded [devBondedA, devUnbondedB]).1
        devUnbondedB).mp hmem).2 (by decide)⟩

/-- C9: with an adapter present, stopDiscovery resolves true and a second
call in a row resolves true again, leaving exactly the state of the first
call, in which isDiscovering is false. -/
theorem c9_stopDiscovery_idempotent (p : Platform) (st : ModuleState)
    (h : p.adapterPresent = true) :
    (stopDiscovery p st).outcome = .resolved "true"
    ∧ (stopDiscovery p (stopDiscovery p st).state).outcome = .resolved "true"
    ∧ (stopDiscovery p (stopDiscovery p st).state).state
        = (stopDiscovery p st).state
    ∧ (stopDiscovery p st).state.isDiscovering = false := by
  simp [stopDiscovery, h]

/-- C2 is refuted by the code: from a reachable state in which a device is
IDLE, a single unsolicited pairing-succeeded bridge event moves it
directly to SUCCEEDED (the handler does not check the current status), so
the transition IDLE→SUCCEEDED is reachable. -/
theorem c2_counterexample :
    (findByAddr
      (appRun (loadBondedStep [])
        [.deviceFound ⟨"AA:BB:CC:DD:EE:01", "ZQ220", 10⟩])
      "AA:BB:CC:DD:EE:01").map DeviceState.pairingStatus
      = some .idle
    ∧ (findByAddr
      (appRun (loadBondedStep [])
        [.deviceFound ⟨"AA:BB:CC:DD:EE:01", "ZQ220", 10⟩,
         .pairingSuccess "AA:BB:CC:DD:EE:01"])
      "AA:BB:CC:DD:EE:01").map DeviceState.pairingStatus
      = some .success := by
  constructor <;> rfl

/-- C2 amended: each action changes a listed device's status only in one of
three unconditional ways — to PAIRING on a pair request for its address,
to SUCCEEDED on a pairing-succeeded event or ALREADY_BONDED result for its
address, or to FAILED on a pairing-failed event or rejected pair call for
its address, each applying whatever the previous status was; every device
in the stepped list is either a freshly inserted IDLE record or stems from
a device of the previous list with the same address whose status it keeps
or changed in one of those three ways. -/
theorem c2_amended_transitions (a : AppAction) (s : List DeviceState) :
    ∀ d' ∈ appStep a s,
      d'.pairingStatus = .idle
      ∨ ∃ d ∈ s, d.address = d'.address ∧
          (d'.pairingStatus = d.pairingStatus
           ∨ (a = .pairRequest d'.address ∧ d'.pairingStatus = .pairing)
           ∨ ((a = .pairingSuccess d'.address ∨ a = .pairAlreadyBonded d'.address)
               ∧ d'.pairingStatus = .success)
           ∨ ((a = .pairingFailed d'.address ∨ a = .pairRejected d'.address)
               ∧ d'.pairingStatus = .failed)) := by
  intro d' hd'
  cases a with
  | deviceFound dv =>
    simp only [appStep, deviceFoundStep] at hd'
    split_ifs at hd' with h1 h2
    · exact Or.inr ⟨d', hd', rfl, Or.inl rfl⟩
    · exact Or.inr ⟨d', hd', rfl, Or.inl rfl⟩
    · rcases List.mem_append.mp hd' with h | h
      · exact Or.inr ⟨d', h, rfl, Or.inl rfl⟩
      · simp only [List.mem_singleton] at h
        subst h
        exact Or.inl rfl
  | discoveryFinished => exact Or.inr ⟨d', hd', rfl, Or.inl rfl⟩
  | pairingSuccess a' =>
    simp only [appStep, pairingSuccessStep] at hd'
    obtain ⟨d, hd, haddr, hcase⟩ := mem_mapIfAddr
      (fun d => { d with bondState := BOND_BONDED, pairingStatus := .success })
      (fun _ => rfl) a' hd'
    rcases hcase with heq | ⟨htgt, heq⟩
    · exact Or.inr ⟨d, hd, haddr, Or.inl (by rw [heq])⟩
    · exact Or.inr ⟨d, hd, haddr,
        Or.inr (Or.inr (Or.inl ⟨Or.inl (by rw [htgt]), by rw [heq]⟩))⟩
  | pairingFailed a' =>
    simp only [appStep, pairingFailedStep] at hd'
    obtain ⟨d, hd, haddr, hcase⟩ := mem_mapIfAddr
      (fun d => { d with pairingStatus := .failed }) (fun _ => rfl) a' hd'
    rcases hcase with heq | ⟨htgt, heq⟩
    · exact Or.inr ⟨d, hd, haddr, Or.inl (by rw [heq])⟩
    · exact Or.inr ⟨d, hd, haddr,
        Or.inr (Or.inr (Or.inr ⟨Or.inl (by rw [htgt]), by rw [heq]⟩))⟩
  | scanStart =>
    exact Or.inr ⟨d', (List.mem_filter.mp hd').1, rfl, Or.inl rfl⟩
  | pairRequest a' =>
    simp only [appStep, pairRequestStep] at hd'
    obtain ⟨d, hd, haddr, hcase⟩ := mem_mapIfAddr
      (fun d => { d with pairingStatus := .pairing }) (fun _ => rfl) a' hd'
    rcases hcase with heq | ⟨htgt, heq⟩
    · exact Or.inr ⟨d, hd, haddr, Or.inl (by rw [heq])⟩
    · exact Or.inr ⟨d, hd, haddr,
        Or.inr (Or.inl ⟨by rw [htgt], by rw [heq]⟩)⟩
  | pairAlreadyBonded a' =>
    simp only [appStep, alreadyBondedStep] at hd'
    obtain ⟨d, hd, haddr, hcase⟩ := mem_mapIfAddr
      (fun d => { d with bondState := BOND_BONDED, pairingStatus := .success })
      (fun _ => rfl) a' hd'
    rcases hcase with heq | ⟨htgt, heq⟩
    · exact Or.inr ⟨d, hd, haddr, Or.inl (by rw [heq])⟩
    · exact Or.inr ⟨d, hd, haddr,
        Or.inr (Or.inr (Or.inl ⟨Or.inr (by rw [htgt]), by rw [heq]⟩))⟩
  | pairRejected a' =>
    simp only [appStep, pairingFailedStep] at hd'
    obtain ⟨d, hd, haddr, hcase⟩ := mem_mapIfAddr
      (fun d => { d with pairingStatus := .failed }) (fun _ => rfl) a' hd'
    rcases hcase with heq | ⟨htgt, heq⟩
    · exact Or.inr ⟨d, hd, haddr, Or.inl (by rw [heq])⟩
    · exact Or.inr ⟨d, hd, haddr,
        Or.inr (Or.inr (Or.inr ⟨Or.inr (by rw [htgt]), by rw [heq]⟩))⟩
  | unpairOk a' =>
    exact Or.inr ⟨d', (List.mem_filter.mp hd').1, rfl, Or.inl rfl⟩

theorem c2_amended_transitions_witness :
    devSuccessC.pairingStatus = .idle
    ∨ ∃ d ∈ [devPairingC], d.address = devSuccessC.address ∧
        (devSuccessC.pairingStatus = d.pairingStatus
         ∨ (AppAction.pairingSuccess "00:07:4D:11:22:33"
              = .pairRequest devSuccessC.address
            ∧ devSuccessC.pairingStatus = .pairing)
         ∨ ((AppAction.pairingSuccess "00:07:4D:11:22:33"
              = .pairingSuccess devSuccessC.address
            ∨ AppAction.pairingSuccess "00:07:4D:11:22:33"
              = .pairAlreadyBonded devSuccessC.address)
            ∧ devSuccessC.pairingStatus = .success)
         ∨ ((AppAction.pairingSuccess "00:07:4D:11:22:33"
              = .pairingFailed devSuccessC.address
            ∨ AppAction.pairingSuccess "00:07:4D:11:22:33"
              = .pairRejected devSuccessC.address)
            ∧ devSuccessC.pairingStatus = .failed)) :=
  c2_amended_transitions (.pairingSuccess "00:07:4D:11:22:33") [devPairingC]
    devSuccessC (by decide)

/-- C3 is refuted by the code: after a device-found event introduced an
address with bond state NONE, a later device-found event for the same
address reporting bond state BONDED is ignored entirely, so the stored
bond state stays NONE instead of reflecting the most recent event. -/
theorem c3_counterexample :
    foundEvtBonded.bondState = BOND_BONDED
    ∧ (findByAddr
        (deviceFoundStep foundEvtBonded
          (deviceFoundStep foundEvtNone (loadBondedStep [])))
        "AA:BB:CC:DD:EE:01").map DeviceState.bondState = some BOND_NONE
    ∧ BOND_NONE ≠ BOND_BONDED := by
  refine ⟨rfl, rfl, by decide⟩

/-- C3 amended: the visible set stays de-duplicated by address (given a
bonded snapshot with distinct addresses), and the first event that
introduced an address wins for the whole device-found record — display
name and bond state alike — because a later device-found event for an
already-listed address leaves the set completely unchanged. -/
theorem c3_amended_merge_policy :
    (∀ (s : List DeviceState) (dv : BluetoothDevice),
        (∃ d ∈ s, d.address = dv.address) → deviceFoundStep dv s = s)
    ∧ (∀ (a : AppAction) (s : List DeviceState),
        (s.map DeviceState.address).Nodup →
        ((appStep a s).map DeviceState.address).Nodup)
    ∧ (∀ bonded : List BluetoothDevice,
        (bonded.map BluetoothDevice.address).Nodup →
        ((loadBondedStep bonded).map DeviceState.address).Nodup) := by
  refine ⟨?_, ?_, ?_⟩
  · intro s dv hex
    obtain ⟨d, hd, hda⟩ := hex
    have hsome : (findByAddr s dv.address).isSome := by
      unfold findByAddr
      exact List.find?_isSome.mpr ⟨d, hd, by simp [hda]⟩
    unfold deviceFoundStep
    by_cases hz : isZebraDevice dv
    · rw [if_neg (by simp [hz]), if_pos hsome]
    · rw [if_pos (by simp [hz])]
  · intro a s hnd
    cases a with
    | deviceFound dv =>
      simp only [appStep, deviceFoundStep]
      split_ifs with h1 h2
      · exact hnd
      · exact hnd
      · rw [List.map_append]
        refine hnd.append (by simp) ?_
        simp only [List.map_cons, List.map_nil, List.disjoint_singleton]
        intro hmem
        obtain ⟨d, hd, hda⟩ := List.mem_map.mp hmem
        have : (findByAddr s dv.address).isSome := by
          unfold findByAddr
          exact List.find?_isSome.mpr ⟨d, hd, by simp [hda]⟩
        exact absurd this h2
    | discoveryFinished => exact hnd
    | pairingSuccess a' =>
      simpa only [appStep, pairingSuccessStep,
        addr_mapIfAddr
          (fun d => { d with bondState := BOND_BONDED, pairingStatus := .success })
          (fun _ => rfl) a' s] using hnd
    | pairingFailed a' =>
      simpa only [appStep, pairingFailedStep,
        addr_mapIfAddr (fun d => { d with pairingStatus := .failed })
          (fun _ => rfl) a' s] using hnd
    | scanStart =>
      exact hnd.sublist ((List.filter_sublist s).map DeviceState.address)
    | pairRequest a' =>
      simpa only [appStep, pairRequestStep,
        addr_mapIfAddr (fun d => { d with pairingStatus := .pairing })
          (fun _ => rfl) a' s] using hnd
    | pairAlreadyBonded a' =>
      simpa only [appStep, alreadyBondedStep,
        addr_mapIfAddr
          (fun d => { d with bondState := BOND_BONDED, pairingStatus := .success })
          (fun _ => rfl) a' s] using hnd
    | pairRejected a' =>
      simpa only [appStep, pairingFailedStep,
        addr_mapIfAddr (fun d => { d with pairingStatus := .failed })
          (fun _ => rfl) a' s] using hnd
    | unpairOk a' =>
      exact hnd.sublist ((List.filter_sublist s).map DeviceState.address)
  · intro bonded hnd
    unfold loadBondedStep
    rw [List.map_map]
    have : ((bonded.filter isZebraDevice).map
        (fun d : BluetoothDevice => d.address)) =
        (bonded.filter isZebraDevice).map
          ((fun d : DeviceState => d.address) ∘
            fun d : BluetoothDevice => ⟨d.address, d.name, d.bondState, .idle⟩) := rfl
    rw [← this]
    exact hnd.sublist ((List.filter_sublist bonded).map BluetoothDevice.address)

theorem c3_amended_merge_policy_witness :
    deviceFoundStep foundEvtBonded [devIdleFirst] = [devIdleFirst] :=
  c3_amended_merge_policy.1 [devIdleFirst] foundEvtBonded
    ⟨devIdleFirst, by decide, rfl⟩

/-- C7: starting from any state in which no device listed at the address
has status PAIRING (in particular one where it is SUCCEEDED or FAILED),
running any sequence of bridge events and commands that contains no pair
request for that address never gives a device at that address status
PAIRING again. -/
theorem c7_no_regression_to_pairing (addr : String) (s : List DeviceState)
    (tr : List AppAction)
    (hs : ∀ d ∈ s, d.address = addr → d.pairingStatus ≠ .pairing)
    (htr : AppAction.pairRequest addr ∉ tr) :
    ∀ d ∈ appRun s tr, d.address = addr → d.pairingStatus ≠ .pairing := by
  induction tr generalizing s with
  | nil => exact hs
  | cons a tl ih =>
    have hne : a ≠ .pairRequest addr := fun h =>
      htr (h ▸ List.mem_cons_self a tl)
    exact ih (appStep a s)
      (appStep_preserves_not_pairing a addr hne s hs)
      (fun h => htr (List.mem_cons_of_mem a h))

theorem c7_no_regression_to_pairing_witness :
    devFailedD.pairingStatus ≠ .pairing :=
  c7_no_regression_to_pairing "00:07:4D:00:00:03" [devFailedD]
    [.pairingFailed "00:07:4D:00:00:03", .discoveryFinished]
    (by decide) (by decide) devFailedD (by decide) rfl

/-- C10: starting from the Zebra-filtered bonded snapshot, every device ever
present in the visible set satisfies isZebraDevice, whatever bridge events
and commands arrive; and a device-found event for a non-Zebra device is
silently dropped, leaving the set unchanged. -/
theorem c10_only_zebra_devices (bonded : List BluetoothDevice)
    (tr : List AppAction) :
    (∀ d ∈ appRun (loadBondedStep bonded) tr,
        isZebraNameAddr d.name d.address = true)
    ∧ (∀ (s : List DeviceState) (dv : BluetoothDevice),
        isZebraDevice dv = false → deviceFoundStep dv s = s) := by
  constructor
  · have h0 : ∀ d ∈ loadBondedStep bonded,
        isZebraNameAddr d.name d.address = true := by
      intro d hd
      obtain ⟨dv, hdv, rfl⟩ := List.mem_map.mp hd
      exact (List.mem_filter.mp hdv).2
    have hgen : ∀ (tr2 : List AppAction) (s : List DeviceState),
        (∀ d ∈ s, isZebraNameAddr d.name d.address = true) →
        ∀ d ∈ appRun s tr2, isZebraNameAddr d.name d.address = true := by
      intro tr2
      induction tr2 with
      | nil => exact fun s hs => hs
      | cons a tl ih =>
        exact fun s hs => ih (appStep a s) (appStep_preserves_zebra a s hs)
    exact hgen tr (loadBondedStep bonded) h0
  · intro s dv hz
    unfold deviceFoundStep
    rw [if_pos (by simp [hz])]

theorem c10_only_zebra_devices_witness :
    isZebraNameAddr devBondedA.name devBondedA.address = true :=
  (c10_only_zebra_devices [⟨"00:07:4D:00:00:01", "ZQ220", BOND_BONDED⟩]
      [.discoveryFinished]).1 devBondedA (by decide)

theorem c9_stopDiscovery_idempotent_witness :
    (stopDiscovery demoPlatform ⟨true, true, "0000"⟩).outcome
      = .resolved "true"
    ∧ (stopDiscovery demoPlatform
        (stopDiscovery demoPlatform ⟨true, true, "0000"⟩).state).outcome
      = .resolved "true"
    ∧ (stopDiscovery demoPlatform
        (stopDiscovery demoPlatform ⟨true, true, "0000"⟩).state).state
      = (stopDiscovery demoPlatform ⟨true, true, "0000"⟩).state
    ∧ (stopDiscovery demoPlatform ⟨true, true, "0000"⟩).state.isDiscovering
      = false :=
  c9_stopDiscovery_idempotent demoPlatform ⟨true, true, "0000"⟩ rfl

end ZebraZQ220
